import Mathlib

/-!
Verification of the tour ticket-registration backend.

Shallow embedding of the backend's data model and operations:
  * `Consent` model and the consent submission / update endpoints
    (backend/app/models/consent.py, backend/app/routes/consent.py,
     backend/app/schemas/consent.py);
  * `Tour`, `Fan`, `FanSelection` models (backend/app/models/);
  * the ticket issuance workflow (backend/app/services/ticket_generator.py)
    and its callers (backend/app/routes/tickets.py);
  * the selection-add endpoints (backend/app/routes/fans.py);
  * the filename sanitizer (backend/app/utils/validators.py).

Machine integers are modelled as `Nat` (Python ints are unbounded and the
counters only ever increase).  Timestamps (`datetime.utcnow()`) are modelled
as an abstract `Nat` passed in by the caller.  Random/IO-produced values
(ticket ids, QR payloads, PDF-write success) are inputs gathered in an
environment structure, mirroring the nondeterminism of the real code.
Database-row mutation plus commit is modelled as pure state passing;
an HTTP-error path that raises before any mutation returns the state
unchanged (no commit happens on those paths in the source).
-/

/-! ### Consent model (backend/app/models/consent.py) -/

/-- Consent row.  Column defaults from the model: `agreed_to_terms`,
`agreed_to_privacy`, `age_verified`, `agreed` default to `False`;
`agreed_to_marketing` defaults to `False` (nullable column, hence
`Option Bool`); `ticket_unlocked` defaults to `False`; `signed_at` is
nullable.  A freshly constructed row that was given no explicit value for
`agreed` behaves as falsy in Python both before flush (attribute `None`)
and after (column default `False`); we model it as `false`. -/
structure Consent where
  fan_id : Nat
  agreed_to_terms : Bool
  agreed_to_privacy : Bool
  agreed_to_marketing : Option Bool
  age_verified : Bool
  date_of_birth : Option Nat
  confirmed_name : String
  confirmed_email : String
  confirmed_phone : Option String
  photo_id_path : Option String
  photo_id_uploaded : Bool
  signature_data : Option String
  signature_name : Option String
  ip_address : Option String
  agreed : Bool
  ticket_unlocked : Bool
  signed_at : Option Nat
  deriving Repr, DecidableEq

/-- Source `Consent.is_complete`: all required consent items, including the
overall `agreed` flag, are true. -/
def Consent.is_complete (c : Consent) : Bool :=
  c.agreed_to_terms && c.agreed_to_privacy && c.age_verified && c.agreed

/-- Source `Consent.can_unlock_tickets`. -/
def Consent.can_unlock_tickets (c : Consent) : Bool :=
  c.is_complete && !c.ticket_unlocked

/-- Source `Consent.complete_consent`: only when `is_complete` already holds does it
set `agreed := true`, stamp `signed_at`, and record the IP address
(`if ip_address: self.ip_address = ip_address`). -/
def Consent.complete_consent (c : Consent) (ip : Option String) (now : Nat) : Consent :=
  if c.is_complete then
    { c with agreed := true, signed_at := some now,
             ip_address := match ip with | some a => some a | none => c.ip_address }
  else c

/-- Source `Consent.unlock_tickets`: sets `ticket_unlocked := true` only when
`is_complete` holds. -/
def Consent.unlock_tickets (c : Consent) : Consent :=
  if c.is_complete then { c with ticket_unlocked := true } else c

/-! ### Consent schemas (backend/app/schemas/consent.py) -/

/-- Source `ConsentCreate` request body, after schema validation.  The field
validators reject the request unless `agreed_to_terms`, `agreed_to_privacy`
and `age_verified` are all true. -/
structure ConsentCreate where
  fan_id : Nat
  agreed_to_terms : Bool
  agreed_to_privacy : Bool
  agreed_to_marketing : Bool
  age_verified : Bool
  date_of_birth : Option Nat
  confirmed_name : String
  confirmed_email : String
  confirmed_phone : Option String
  signature_name : Option String
  signature_data : Option String
  deriving Repr, DecidableEq

/-- Source `ConsentUpdate` request body: exactly four optional fields.  An outer
`some` means the client provided the field (pydantic `exclude_unset`); the
inner value is what gets assigned to the row. -/
structure ConsentUpdate where
  agreed_to_marketing : Option (Option Bool)
  confirmed_phone : Option (Option String)
  signature_name : Option (Option String)
  signature_data : Option (Option String)
  deriving Repr, DecidableEq

/-! ### Consent routes (backend/app/routes/consent.py) -/

/-- Source `submit_consent` from the point where the fan was found and no prior
consent row exists (both guards raise before any row is created).  Builds
the row from the request (leaving `agreed`, `ticket_unlocked`, `signed_at`
at their defaults), then calls `complete_consent` and `unlock_tickets`. -/
def submit_consent (d : ConsentCreate) (client_ip : Option String) (now : Nat) : Consent :=
  let consent : Consent :=
    { fan_id := d.fan_id
      agreed_to_terms := d.agreed_to_terms
      agreed_to_privacy := d.agreed_to_privacy
      agreed_to_marketing := some d.agreed_to_marketing
      age_verified := d.age_verified
      date_of_birth := d.date_of_birth
      confirmed_name := d.confirmed_name
      confirmed_email := d.confirmed_email
      confirmed_phone := d.confirmed_phone
      photo_id_path := none
      photo_id_uploaded := false
      signature_data := d.signature_data
      signature_name := d.signature_name
      ip_address := client_ip
      agreed := false
      ticket_unlocked := false
      signed_at := none }
  let consent := consent.complete_consent client_ip now
  consent.unlock_tickets

/-- Source `update_consent` from the point where the consent row was found:
applies exactly the provided fields of the `ConsentUpdate` body onto the
row (`for field, value in update_data.items(): setattr(consent, field, value)`). -/
def update_consent (c : Consent) (u : ConsentUpdate) : Consent :=
  let c := match u.agreed_to_marketing with
    | some v => { c with agreed_to_marketing := v }
    | none => c
  let c := match u.confirmed_phone with
    | some v => { c with confirmed_phone := v }
    | none => c
  let c := match u.signature_name with
    | some v => { c with signature_name := v }
    | none => c
  match u.signature_data with
    | some v => { c with signature_data := v }
    | none => c

/-! ### Filename sanitizer (backend/app/utils/validators.py, `sanitize_filename`)

The Python function is
  filename = re.sub(r'[^\w\s\-\.]', '', filename)
  filename = re.sub(r'[\s]+', '_', filename)
  return filename.strip('._')
We model strings as `List Char`.  The regex character classes `\w` and `\s`
are Unicode-aware; they are kept abstract as boolean predicates `w` and
`sp`, instantiated at concrete inputs with their ASCII restrictions. -/

/-- ASCII restriction of the regex class `\w` (letters, digits, underscore). -/
def wordChar (c : Char) : Bool := c.isAlphanum || c = '_'

/-- ASCII restriction of the regex class `\s`. -/
def spaceChar (c : Char) : Bool := c.isWhitespace

/-- Characters removed by the final `.strip('._')`. -/
def sepChar (c : Char) : Bool := c = '.' || c = '_'

/-- Source `re.sub(r'[\s]+', '_', s)`: each maximal run of `sp`-characters becomes a
single underscore.  The flag records whether we are inside such a run. -/
def collapseWs (sp : Char → Bool) : Bool → List Char → List Char
  | _, [] => []
  | inRun, c :: cs =>
    if sp c then
      if inRun then collapseWs sp true cs else '_' :: collapseWs sp true cs
    else c :: collapseWs sp false cs

/-- Source `s.strip('._')`: drop `sepChar`s from both ends. -/
def stripSeps (l : List Char) : List Char :=
  ((l.dropWhile sepChar).reverse.dropWhile sepChar).reverse

/-- Source `sanitize_filename`, with the regex classes `\w` and `\s` abstracted as
`w` and `sp`. -/
def sanitize_filename (w sp : Char → Bool) (s : List Char) : List Char :=
  let s1 := s.filter (fun c => w c || sp c || c = '-' || c = '.')
  stripSeps (collapseWs sp false s1)

/-- Source `sanitize_filename` on `String`s, with the ASCII class instances; used to
build PDF filenames. -/
def sanitizeFilenameStr (s : String) : String :=
  ⟨sanitize_filename wordChar spaceChar s.data⟩

/-! ### Tour model (backend/app/models/tour.py)

Display-only columns that no modelled operation reads (`description`,
`image_url`, timestamps) are omitted. -/

/-- Tour row. -/
structure Tour where
  id : Nat
  title : String
  date : Nat
  city : String
  venue : String
  artists : String
  ticket_limit : Nat
  tickets_claimed : Nat
  is_active : Bool
  deriving Repr, DecidableEq

/-- Source `Tour.is_available`: active and under capacity. -/
def Tour.is_available (t : Tour) : Bool :=
  t.is_active && decide (t.tickets_claimed < t.ticket_limit)

/-- Source `Tour.tickets_remaining`. -/
def Tour.tickets_remaining (t : Tour) : Nat :=
  t.ticket_limit - t.tickets_claimed

/-! ### FanSelection model (backend/app/models/fan_selection.py) -/

/-- Source `SelectionStatus` enum. -/
inductive SelectionStatus where
  | pending
  | confirmed
  | cancelled
  | expired
  deriving Repr, DecidableEq

/-- FanSelection row. -/
structure FanSelection where
  id : Nat
  fan_id : Nat
  tour_id : Nat
  status : SelectionStatus
  ticket_id : Option String
  ticket_qr_code : Option String
  ticket_pdf_path : Option String
  ticket_generated_at : Option Nat
  confirmed_at : Option Nat
  deriving Repr, DecidableEq

/-- A freshly inserted selection row: `FanSelection(fan_id=..., tour_id=...)`
with the column defaults (`status` pending, all ticket fields null).  The
database-assigned primary key is passed in as `nid`. -/
def FanSelection.new (nid fanId tourId : Nat) : FanSelection :=
  { id := nid, fan_id := fanId, tour_id := tourId, status := .pending,
    ticket_id := none, ticket_qr_code := none, ticket_pdf_path := none,
    ticket_generated_at := none, confirmed_at := none }

/-- Source `FanSelection.has_ticket`: both `ticket_id` and `ticket_pdf_path` set. -/
def FanSelection.has_ticket (s : FanSelection) : Bool :=
  s.ticket_id.isSome && s.ticket_pdf_path.isSome

/-- Source `FanSelection.is_confirmed`. -/
def FanSelection.is_confirmed (s : FanSelection) : Bool :=
  s.status = .confirmed

/-- Source `FanSelection.confirm_selection`: set status to confirmed and stamp
`confirmed_at`. -/
def FanSelection.confirm_selection (s : FanSelection) (now : Nat) : FanSelection :=
  { s with status := .confirmed, confirmed_at := some now }

/-- Source `FanSelection.cancel_selection` (defined by the model; no route ever
calls it). -/
def FanSelection.cancel_selection (s : FanSelection) : FanSelection :=
  { s with status := .cancelled }

/-! ### Fan model (backend/app/models/fan.py) -/

/-- Fan row together with its owned relationships (`selections`, `consent`). -/
structure Fan where
  id : Nat
  email : String
  name : String
  phone : Option String
  registration_code : Option String
  is_verified : Bool
  is_active : Bool
  selections : List FanSelection
  consent : Option Consent
  deriving Repr, DecidableEq

/-- Source `Fan.selections_count`. -/
def Fan.selections_count (f : Fan) : Nat := f.selections.length

/-- Source `Fan.has_completed_consent`: a consent row exists and its `agreed` flag
is set. -/
def Fan.has_completed_consent (f : Fan) : Bool :=
  match f.consent with
  | some c => c.agreed
  | none => false

/-- Source `Fan.can_select_more_tours`; `maxTours` stands for
`settings.MAX_TOURS_PER_FAN` (default 5). -/
def Fan.can_select_more_tours (f : Fan) (maxTours : Nat) : Bool :=
  decide (f.selections_count < maxTours)

/-- Default value of `settings.MAX_TOURS_PER_FAN` (backend/app/config.py). -/
def MAX_TOURS_PER_FAN : Nat := 5

/-! ### Ticket issuance workflow (backend/app/services/ticket_generator.py)

`generate_ticket` calls `generate_ticket_id` (timestamp + random suffix),
`qr_service.generate_ticket_qr_code` (renders a QR raster and base64-encodes
it) and `pdf_service.create_ticket_pdf` (returns `False` when rendering
threw).  These IO-produced values are inputs, gathered in `GenEnv`.  The
on-disk ticket directory is modelled as the list of file paths present. -/

/-- Environment of one `generate_ticket` call: the value returned by
`generate_ticket_id(fan.id, tour.id)`, the data URI returned by
`qr_service.generate_ticket_qr_code(ticket_id)`, whether
`pdf_service.create_ticket_pdf` succeeded, and `datetime.utcnow()`. -/
structure GenEnv where
  ticketId : String
  qrCode : String
  pdfOk : Bool
  now : Nat
  deriving Repr, DecidableEq

/-- Source `settings.TICKET_DIR` (backend/app/config.py). -/
def TICKET_DIR : String := "./tickets/generated"

/-- Source `TicketGenerator._generate_pdf_filename`. -/
def generate_pdf_filename (fan : Fan) (tour : Tour) (ticketId : String) : String :=
  "VIP_Ticket_" ++ sanitizeFilenameStr fan.name ++ "_" ++
    sanitizeFilenameStr tour.title ++ "_" ++ ticketId ++ ".pdf"

/-- Source `os.path.join(self.ticket_dir, pdf_filename)`. -/
def ticketPdfPathFor (fan : Fan) (tour : Tour) (ticketId : String) : String :=
  TICKET_DIR ++ "/" ++ generate_pdf_filename fan tour ticketId

/-- The dictionary returned by `generate_ticket` on success. -/
structure TicketInfo where
  ticket_id : String
  qr_code : String
  pdf_path : String
  pdf_filename : String
  generated_at : Nat
  deriving Repr, DecidableEq

/-- Persistent state touched by one issuance: the selection row, its tour
row, and the ticket directory contents.  The fan row is read-only here. -/
structure IssueState where
  fan : Fan
  tour : Tour
  selection : FanSelection
  files : List String
  deriving Repr, DecidableEq

/-- The success branch of `generate_ticket`: write the ticket fields onto
the selection, `confirm_selection()`, and increment the tour's
`tickets_claimed`. -/
def issueSuccess (env : GenEnv) (fan : Fan) (tour : Tour) (sel : FanSelection) :
    FanSelection × Tour :=
  let pdf_path := ticketPdfPathFor fan tour env.ticketId
  let sel := { sel with
    ticket_id := some env.ticketId
    ticket_qr_code := some env.qrCode
    ticket_pdf_path := some pdf_path
    ticket_generated_at := some env.now }
  let sel := sel.confirm_selection env.now
  (sel, { tour with tickets_claimed := tour.tickets_claimed + 1 })

/-- Source `TicketGenerator.generate_ticket`.  When the PDF step fails the function
raises `Exception("Failed to generate ticket PDF")` before any row was
touched or committed, so the state comes back unchanged; on success the
written PDF appears in the ticket directory and the row updates are
committed. -/
def generate_ticket (env : GenEnv) (st : IssueState) :
    IssueState × Except String TicketInfo :=
  let pdf_filename := generate_pdf_filename st.fan st.tour env.ticketId
  let pdf_path := TICKET_DIR ++ "/" ++ pdf_filename
  if env.pdfOk then
    let r := issueSuccess env st.fan st.tour st.selection
    ({ st with selection := r.1, tour := r.2, files := st.files ++ [pdf_path] },
     .ok { ticket_id := env.ticketId, qr_code := env.qrCode, pdf_path := pdf_path,
           pdf_filename := pdf_filename, generated_at := env.now })
  else
    (st, .error "Failed to generate ticket PDF")

/-- Source `TicketGenerator.regenerate_ticket`, from the point where the selection
row was found: delete the old PDF from the ticket directory when it exists
(`if selection.ticket_pdf_path and os.path.exists(...): os.remove(...)`),
then run `generate_ticket` unconditionally. -/
def regenerate_ticket (env : GenEnv) (st : IssueState) :
    IssueState × Except String TicketInfo :=
  let files := match st.selection.ticket_pdf_path with
    | some p => st.files.erase p
    | none => st.files
  generate_ticket env { st with files := files }

/-- Response of the single-ticket endpoint. -/
inductive SingleResp where
  | alreadyGenerated (ticket_id pdf_path : String)
  | generated (info : TicketInfo)
  | failed (msg : String)
  deriving Repr, DecidableEq

/-- Source `generate_single_ticket` (backend/app/routes/tickets.py), from the point
where the fan and the selection were found (the not-found guards raise
before anything happens).  Checks the fan's consent, then returns the
existing ticket data when `selection.has_ticket`, and only otherwise calls
the workflow. -/
def generate_single_ticket (env : GenEnv) (st : IssueState) : IssueState × SingleResp :=
  if st.fan.has_completed_consent = false then
    (st, .failed "Consent form must be completed before generating tickets")
  else
    match st.selection.ticket_id, st.selection.ticket_pdf_path with
    | some t, some p => (st, .alreadyGenerated t p)
    | _, _ =>
      match generate_ticket env st with
      | (st1, .ok info) => (st1, .generated info)
      | (st1, .error e) => (st1, .failed e)

/-- One item of the bulk-generation response list. -/
inductive BulkItem where
  | alreadyGenerated (ticket_id pdf_path : String)
  | generated (info : TicketInfo)
  deriving Repr, DecidableEq

/-- Source `TicketGenerator.generate_tickets_for_fan`, iterating the fan's
selections (each paired with its tour).  Selections whose status is
`confirmed` or `pending` are processed: ones that already have a ticket are
reported as already generated and skipped; otherwise `generate_ticket` runs,
and a per-item exception (PDF failure) is logged and the loop continues.
Each call consumes the head of the environment stream. -/
def generate_tickets_for_fan (fan : Fan) :
    List GenEnv → List (FanSelection × Tour) →
      List (FanSelection × Tour) × List BulkItem
  | _, [] => ([], [])
  | envs, (sel, tour) :: rest =>
    let env := envs.headD { ticketId := "", qrCode := "", pdfOk := false, now := 0 }
    let envs1 := envs.tail
    if sel.status = .confirmed ∨ sel.status = .pending then
      match sel.ticket_id, sel.ticket_pdf_path with
      | some t, some p =>
        let r := generate_tickets_for_fan fan envs1 rest
        ((sel, tour) :: r.1, .alreadyGenerated t p :: r.2)
      | _, _ =>
        if env.pdfOk then
          let info : TicketInfo :=
            { ticket_id := env.ticketId, qr_code := env.qrCode,
              pdf_path := ticketPdfPathFor fan tour env.ticketId,
              pdf_filename := generate_pdf_filename fan tour env.ticketId,
              generated_at := env.now }
          let r := generate_tickets_for_fan fan envs1 rest
          (issueSuccess env fan tour sel :: r.1, .generated info :: r.2)
        else
          let r := generate_tickets_for_fan fan envs1 rest
          ((sel, tour) :: r.1, r.2)
    else
      let r := generate_tickets_for_fan fan envs1 rest
      ((sel, tour) :: r.1, r.2)

/-! ### Selection-add endpoints (backend/app/routes/fans.py) -/

/-- Error raised by `add_tour_selection`; each constructor is one
`HTTPException` site, in source order. -/
inductive AddSelErr where
  | maxSelectionsReached
  | tourNotFound
  | tourNotAvailable
  | alreadySelected
  deriving Repr, DecidableEq

/-- Source `add_tour_selection`, from the point where the fan row was found.
`tours` is the tours table; `nid` is the database-assigned primary key of
the new row.  On any error the route raises before `db.add`, so no row is
persisted. -/
def add_tour_selection (maxTours : Nat) (fan : Fan) (tours : List Tour)
    (tourId : Nat) (nid : Nat) : Except AddSelErr Fan :=
  if fan.can_select_more_tours maxTours = false then
    .error .maxSelectionsReached
  else
    match tours.find? (fun t => t.id = tourId) with
    | none => .error .tourNotFound
    | some tour =>
      if tour.is_available = false then
        .error .tourNotAvailable
      else if fan.selections.any (fun s => s.tour_id = tourId) then
        .error .alreadySelected
      else
        .ok { fan with selections := fan.selections ++ [FanSelection.new nid fan.id tourId] }

/-- Error raised by `add_bulk_tour_selections`, in source order. -/
inductive BulkSelErr where
  | limitExceeded (requested current maxTours : Nat)
  | toursNotFound
  | toursNotAvailable (titles : List String)
  | alreadySelected
  deriving Repr, DecidableEq

/-- Source `add_bulk_tour_selections`, from the point where the fan row was found.
The ceiling check compares `current_count + len(tour_ids)` against
`MAX_TOURS_PER_FAN` before anything else; every error path raises before
any `db.add`, and all new rows are committed together at the end. -/
def add_bulk_tour_selections (maxTours : Nat) (fan : Fan) (tours : List Tour)
    (tourIds : List Nat) : Except BulkSelErr Fan :=
  let current_count := fan.selections_count
  let new_count := tourIds.length
  if current_count + new_count > maxTours then
    .error (.limitExceeded new_count current_count maxTours)
  else
    let found := tours.filter (fun t => t.id ∈ tourIds)
    if found.length ≠ tourIds.length then
      .error .toursNotFound
    else
      let unavailable := found.filter (fun t => t.is_available = false)
      if unavailable.isEmpty = false then
        .error (.toursNotAvailable (unavailable.map Tour.title))
      else if tourIds.any (fun tid => fan.selections.any (fun s => s.tour_id = tid)) then
        .error .alreadySelected
      else
        .ok { fan with
          selections := fan.selections ++ tourIds.map (FanSelection.new 0 fan.id) }

/-- Source `remove_tour_selection`, from the point where the selection row was
found and belongs to the fan: rejected with a 400 validation error when a
ticket exists, deleted otherwise. -/
def remove_tour_selection (sel : FanSelection) : Except String Unit :=
  if sel.has_ticket then
    .error "Cannot remove selection - ticket already generated"
  else
    .ok ()

/-! ### Tour capacity under the exposed operations (claim C2)

One tour; the second component counts its selections that exist but have
no ticket yet.  `addSelection` is `add_tour_selection`'s availability
guard plus row insertion; `issueTicket` is a caller-side issuance of one
un-ticketed selection via `generate_ticket` (which increments
`tickets_claimed` with no capacity check).  A request whose guard fails is
rejected by the route and leaves the state unchanged. -/

inductive TourOp where
  | addSelection
  | issueTicket
  deriving Repr, DecidableEq

/-- One exposed operation on a tour and its un-ticketed selection count. -/
def tourStep (s : Tour × Nat) (op : TourOp) : Tour × Nat :=
  match op with
  | .addSelection => if s.1.is_available then (s.1, s.2 + 1) else s
  | .issueTicket =>
    if s.2 > 0 then
      ({ s.1 with tickets_claimed := s.1.tickets_claimed + 1 }, s.2 - 1)
    else s

/-- A sequential (non-interleaved) execution of the exposed operations. -/
def tourRun (s : Tour × Nat) (ops : List TourOp) : Tour × Nat :=
  ops.foldl tourStep s

/-- Traces in which every selection-add happens while no un-ticketed
selection is outstanding for the tour. -/
def addsOnlyWhenDrained (s : Tour × Nat) : List TourOp → Bool
  | [] => true
  | op :: ops =>
    (op ≠ TourOp.addSelection || s.2 = 0) && addsOnlyWhenDrained (tourStep s op) ops

/-! ### Per-selection state machine (claim C9)

The exposed operations that can touch one selection row: the workflow-level
issuance (`generate_ticket`, run unconditionally by `regenerate_ticket` and
by the bulk loop once its has-ticket skip is passed), the single-selection
endpoint (which skips when a ticket exists), and the removal endpoint.
`cancel_selection` is never called by any route. -/

inductive SelOp where
  | generate (env : GenEnv)
  | generateSingle (env : GenEnv)
  | remove
  deriving Repr, DecidableEq

/-- Result of one operation on a selection row: `ok` (row kept, possibly
updated), `err` (HTTP error raised, row unchanged and in place), `deleted`
(row removed from the database). -/
inductive SelStepResult where
  | ok (s : FanSelection)
  | err (s : FanSelection)
  | deleted
  deriving Repr, DecidableEq

/-- One exposed operation applied to a selection row (with its fan and tour
fixed for the PDF filename). -/
def selStep (fan : Fan) (tour : Tour) (sel : FanSelection) (op : SelOp) : SelStepResult :=
  match op with
  | .generate env =>
    if env.pdfOk then .ok (issueSuccess env fan tour sel).1
    else .err sel
  | .generateSingle env =>
    match sel.ticket_id, sel.ticket_pdf_path with
    | some _, some _ => .ok sel
    | _, _ =>
      if env.pdfOk then .ok (issueSuccess env fan tour sel).1
      else .err sel
  | .remove =>
    if sel.has_ticket then .err sel else .deleted

/-- Run a sequence of exposed operations from a selection row; `none` means
the row was deleted (later requests for it would 404). -/
def selRun (fan : Fan) (tour : Tour) : FanSelection → List SelOp → Option FanSelection
  | sel, [] => some sel
  | sel, op :: ops =>
    match selStep fan tour sel op with
    | .ok s1 => selRun fan tour s1 ops
    | .err s1 => selRun fan tour s1 ops
    | .deleted => none

/-! ## Claims -/

/-- C1: the claim states that a newly submitted consent is completed in the
same action (`agreed = true`, `signed_at` set, `ticket_unlocked = true`).
The code does the opposite: `complete_consent` acts only when `is_complete`
already holds, but `is_complete` itself requires `agreed`, which a fresh
row never has set — so for every validated submission the stored row keeps
`agreed = false`, `signed_at = null` and `ticket_unlocked = false`,
contradicting the route's own comment (complete consent sets agreed and
signed_at) and its hardcoded `tickets_unlocked=True` response. -/
theorem submit_consent_never_completes (d : ConsentCreate) (ip : Option String) (now : Nat)
    (ht : d.agreed_to_terms = true) (hp : d.agreed_to_privacy = true)
    (ha : d.age_verified = true) :
    (submit_consent d ip now).agreed = false ∧
    (submit_consent d ip now).signed_at = none ∧
    (submit_consent d ip now).ticket_unlocked = false := by
  simp [submit_consent, Consent.complete_consent, Consent.unlock_tickets, Consent.is_complete]

/-- Witness for `submit_consent_never_completes` at a concrete valid
submission. -/
theorem submit_consent_never_completes_witness :
    (({ fan_id := 1, agreed_to_terms := true, agreed_to_privacy := true,
        agreed_to_marketing := false, age_verified := true, date_of_birth := none,
        confirmed_name := "Jane Doe", confirmed_email := "a@b.com",
        confirmed_phone := none, signature_name := some "Jane Doe",
        signature_data := none : ConsentCreate }).agreed_to_terms = true) ∧
    ((submit_consent
        { fan_id := 1, agreed_to_terms := true, agreed_to_privacy := true,
          agreed_to_marketing := false, age_verified := true, date_of_birth := none,
          confirmed_name := "Jane Doe", confirmed_email := "a@b.com",
          confirmed_phone := none, signature_name := some "Jane Doe",
          signature_data := none } (some "127.0.0.1") 1000).agreed = false ∧
     (submit_consent
        { fan_id := 1, agreed_to_terms := true, agreed_to_privacy := true,
          agreed_to_marketing := false, age_verified := true, date_of_birth := none,
          confirmed_name := "Jane Doe", confirmed_email := "a@b.com",
          confirmed_phone := none, signature_name := some "Jane Doe",
          signature_data := none } (some "127.0.0.1") 1000).signed_at = none ∧
     (submit_consent
        { fan_id := 1, agreed_to_terms := true, agreed_to_privacy := true,
          agreed_to_marketing := false, age_verified := true, date_of_birth := none,
          confirmed_name := "Jane Doe", confirmed_email := "a@b.com",
          confirmed_phone := none, signature_name := some "Jane Doe",
          signature_data := none } (some "127.0.0.1") 1000).ticket_unlocked = false) :=
  ⟨rfl, submit_consent_never_completes _ _ _ rfl rfl rfl⟩

/-- C10: the consent update endpoint can modify only `agreed_to_marketing`,
`confirmed_phone`, `signature_name` and `signature_data`; every other field
of the row — in particular `agreed_to_terms`, `agreed_to_privacy`,
`age_verified`, `agreed`, `signed_at`, `ticket_unlocked` — is unchanged, so
`is_complete` and `ticket_unlocked` are invariant under the update. -/
theorem update_consent_frame (c : Consent) (u : ConsentUpdate) :
    (update_consent c u).fan_id = c.fan_id ∧
    (update_consent c u).agreed_to_terms = c.agreed_to_terms ∧
    (update_consent c u).agreed_to_privacy = c.agreed_to_privacy ∧
    (update_consent c u).age_verified = c.age_verified ∧
    (update_consent c u).date_of_birth = c.date_of_birth ∧
    (update_consent c u).confirmed_name = c.confirmed_name ∧
    (update_consent c u).confirmed_email = c.confirmed_email ∧
    (update_consent c u).photo_id_path = c.photo_id_path ∧
    (update_consent c u).photo_id_uploaded = c.photo_id_uploaded ∧
    (update_consent c u).ip_address = c.ip_address ∧
    (update_consent c u).agreed = c.agreed ∧
    (update_consent c u).signed_at = c.signed_at ∧
    (update_consent c u).ticket_unlocked = c.ticket_unlocked ∧
    (update_consent c u).is_complete = c.is_complete := by
  obtain ⟨m, p, sn, sd⟩ := u
  cases m <;> cases p <;> cases sn <;> cases sd <;>
    simp [update_consent, Consent.is_complete]

/-- C4: when the PDF rendering step fails, `generate_ticket` signals the
generic failure upward and leaves the whole state (selection row, tour row,
ticket directory) exactly as it was: no partial writes. -/
theorem generate_ticket_pdf_failure_no_writes (env : GenEnv) (st : IssueState)
    (h : env.pdfOk = false) :
    generate_ticket env st = (st, .error "Failed to generate ticket PDF") := by
  simp [generate_ticket, h]

/-- Sample fan used by concrete witnesses. -/
def sampleFan : Fan :=
  { id := 1, email := "a@b.com", name := "Jane", phone := none,
    registration_code := none, is_verified := false, is_active := true,
    selections := [], consent := none }

/-- Sample tour used by concrete witnesses. -/
def sampleTour : Tour :=
  { id := 2, title := "Tour", date := 0, city := "C", venue := "V",
    artists := "A", ticket_limit := 10, tickets_claimed := 3, is_active := true }

/-- Sample issuance state used by concrete witnesses. -/
def sampleState : IssueState :=
  { fan := sampleFan, tour := sampleTour,
    selection := FanSelection.new 5 1 2, files := [] }

/-- Sample environment of a successful issuance. -/
def sampleEnvOk : GenEnv := { ticketId := "TKT-1", qrCode := "QR", pdfOk := true, now := 9 }

/-- Sample environment of a failed PDF render. -/
def sampleEnvBad : GenEnv := { ticketId := "TKT-1", qrCode := "QR", pdfOk := false, now := 9 }

/-- Witness for `generate_ticket_pdf_failure_no_writes`. -/
theorem generate_ticket_pdf_failure_no_writes_witness :
    sampleEnvBad.pdfOk = false ∧
    generate_ticket sampleEnvBad sampleState =
      (sampleState, .error "Failed to generate ticket PDF") :=
  ⟨rfl, generate_ticket_pdf_failure_no_writes sampleEnvBad sampleState rfl⟩

/-- C3: whenever `generate_ticket` returns successfully, the selection's
`ticket_id`, `ticket_qr_code`, `ticket_pdf_path` and `ticket_generated_at`
are set, its status is confirmed with `confirmed_at` set, and the tour's
`tickets_claimed` equals its prior value plus exactly 1 (in particular it
never decreases on a successful issuance). -/
theorem generate_ticket_success_postcondition (env : GenEnv) (st st1 : IssueState)
    (info : TicketInfo) (h : generate_ticket env st = (st1, .ok info)) :
    st1.selection.ticket_id = some env.ticketId ∧
    st1.selection.ticket_qr_code = some env.qrCode ∧
    st1.selection.ticket_pdf_path = some (ticketPdfPathFor st.fan st.tour env.ticketId) ∧
    st1.selection.ticket_generated_at = some env.now ∧
    st1.selection.status = .confirmed ∧
    st1.selection.confirmed_at = some env.now ∧
    st1.tour.tickets_claimed = st.tour.tickets_claimed + 1 ∧
    st.tour.tickets_claimed ≤ st1.tour.tickets_claimed := by
  by_cases hp : env.pdfOk
  · simp only [generate_ticket, hp, if_true, Prod.mk.injEq] at h
    obtain ⟨h1, -⟩ := h
    subst h1
    simp [issueSuccess, FanSelection.confirm_selection, ticketPdfPathFor]
  · simp [generate_ticket, hp] at h

/-- Witness for `generate_ticket_success_postcondition` at a concrete
successful issuance. -/
theorem generate_ticket_success_postcondition_witness :
    (generate_ticket sampleEnvOk sampleState =
      ((generate_ticket sampleEnvOk sampleState).1,
       .ok { ticket_id := "TKT-1", qr_code := "QR",
             pdf_path := "./tickets/generated/VIP_Ticket_Jane_Tour_TKT-1.pdf",
             pdf_filename := "VIP_Ticket_Jane_Tour_TKT-1.pdf", generated_at := 9 })) ∧
    (generate_ticket sampleEnvOk sampleState).1.tour.tickets_claimed =
      sampleState.tour.tickets_claimed + 1 :=
  ⟨rfl, (generate_ticket_success_postcondition sampleEnvOk sampleState
      (generate_ticket sampleEnvOk sampleState).1
      { ticket_id := "TKT-1", qr_code := "QR",
        pdf_path := "./tickets/generated/VIP_Ticket_Jane_Tour_TKT-1.pdf",
        pdf_filename := "VIP_Ticket_Jane_Tour_TKT-1.pdf", generated_at := 9 }
      rfl).2.2.2.2.2.2.1⟩

/-- C6: invoking `regenerate_ticket` on a selection that already has a
ticket deletes the existing PDF from the ticket directory when present and
re-runs the full issuance unconditionally; on success the selection carries
the freshly generated ticket id (different from the old one whenever the
generator output differs) and the tour's `tickets_claimed` is incremented
again, by 1 relative to its value before the call. -/
theorem regenerate_ticket_reruns_issuance (env : GenEnv) (st : IssueState)
    (tid p : String)
    (hTid : st.selection.ticket_id = some tid)
    (hPath : st.selection.ticket_pdf_path = some p)
    (hPdf : env.pdfOk = true) :
    (regenerate_ticket env st).2 =
      .ok { ticket_id := env.ticketId, qr_code := env.qrCode,
            pdf_path := ticketPdfPathFor st.fan st.tour env.ticketId,
            pdf_filename := generate_pdf_filename st.fan st.tour env.ticketId,
            generated_at := env.now } ∧
    (regenerate_ticket env st).1.selection.ticket_id = some env.ticketId ∧
    (regenerate_ticket env st).1.selection.ticket_pdf_path =
      some (ticketPdfPathFor st.fan st.tour env.ticketId) ∧
    (regenerate_ticket env st).1.tour.tickets_claimed = st.tour.tickets_claimed + 1 ∧
    (regenerate_ticket env st).1.files =
      st.files.erase p ++ [ticketPdfPathFor st.fan st.tour env.ticketId] ∧
    (env.ticketId ≠ tid →
      (regenerate_ticket env st).1.selection.ticket_id ≠ some tid) := by
  refine ⟨?_, ?_, ?_, ?_, ?_, ?_⟩ <;>
    simp [regenerate_ticket, generate_ticket, hPath, hPdf, issueSuccess,
      FanSelection.confirm_selection, ticketPdfPathFor]

/-- Witness for `regenerate_ticket_reruns_issuance`: a selection holding
ticket `TKT-0` is regenerated under environment `sampleEnvOk`. -/
theorem regenerate_ticket_reruns_issuance_witness :
    ({ sampleState with selection := { sampleState.selection with
          ticket_id := some "TKT-0",
          ticket_pdf_path := some "./tickets/generated/old.pdf" } : IssueState
      }.selection.ticket_id = some "TKT-0" ∧
     sampleEnvOk.pdfOk = true) ∧
    ((regenerate_ticket sampleEnvOk
        { sampleState with selection := { sampleState.selection with
            ticket_id := some "TKT-0",
            ticket_pdf_path := some "./tickets/generated/old.pdf" } }).1.tour.tickets_claimed
      = sampleState.tour.tickets_claimed + 1) :=
  ⟨⟨rfl, rfl⟩,
    (regenerate_ticket_reruns_issuance sampleEnvOk
      { sampleState with selection := { sampleState.selection with
          ticket_id := some "TKT-0",
          ticket_pdf_path := some "./tickets/generated/old.pdf" } }
      "TKT-0" "./tickets/generated/old.pdf" rfl rfl rfl).2.2.2.1⟩

/-- In the bulk per-fan generation loop, an entry whose selection already
has a ticket is reported as already generated and passed through
unchanged. -/
theorem generate_tickets_for_fan_skips_ticketed (fan : Fan) :
    ∀ (entries : List (FanSelection × Tour)) (envs : List GenEnv) (i : Nat)
      (sel : FanSelection) (tour : Tour),
      entries[i]? = some (sel, tour) → sel.has_ticket = true →
      (generate_tickets_for_fan fan envs entries).1[i]? = some (sel, tour) := by
  intro entries
  induction entries with
  | nil => intro envs i sel tour h _; simp at h
  | cons e rest ih =>
    intro envs i sel tour h hht
    obtain ⟨s, t⟩ := e
    match i with
    | 0 =>
      simp only [List.getElem?_cons_zero, Option.some.injEq, Prod.mk.injEq] at h
      obtain ⟨rfl, rfl⟩ := h
      have hh : s.ticket_id.isSome = true ∧ s.ticket_pdf_path.isSome = true := by
        simpa [FanSelection.has_ticket] using hht
      obtain ⟨t1, ht1⟩ := Option.isSome_iff_exists.mp hh.1
      obtain ⟨p1, hp1⟩ := Option.isSome_iff_exists.mp hh.2
      by_cases hst : (s.status = SelectionStatus.confirmed ∨ s.status = SelectionStatus.pending) <;>
        simp [generate_tickets_for_fan, hst, ht1, hp1]
    | i + 1 =>
      have h' : rest[i]? = some (sel, tour) := by simpa using h
      by_cases hst : (s.status = SelectionStatus.confirmed ∨ s.status = SelectionStatus.pending) <;>
        rcases ht1 : s.ticket_id with _ | t1 <;>
        rcases hp1 : s.ticket_pdf_path with _ | p1 <;>
        by_cases hpdf : (envs.head?.getD { ticketId := "", qrCode := "", pdfOk := false, now := 0 } : GenEnv).pdfOk = true <;>
        simp [generate_tickets_for_fan, hst, ht1, hp1, hpdf] <;>
        exact ih envs.tail i sel tour h' hht

/-- C7: re-invoking issuance for a selection that already has a ticket is a
no-op on persistent state at the caller layer: the single-selection
endpoint returns the stored ticket id and pdf path marked already-generated
without calling the workflow (state unchanged), and the bulk per-fan loop
passes such a selection (and its tour) through unchanged. -/
theorem reissue_with_ticket_is_noop :
    (∀ (env : GenEnv) (st : IssueState) (t p : String),
       st.fan.has_completed_consent = true →
       st.selection.ticket_id = some t →
       st.selection.ticket_pdf_path = some p →
       generate_single_ticket env st = (st, .alreadyGenerated t p)) ∧
    (∀ (fan : Fan) (envs : List GenEnv) (entries : List (FanSelection × Tour))
       (i : Nat) (sel : FanSelection) (tour : Tour),
       entries[i]? = some (sel, tour) → sel.has_ticket = true →
       (generate_tickets_for_fan fan envs entries).1[i]? = some (sel, tour)) := by
  constructor
  · intro env st t p hcons h1 h2
    simp [generate_single_ticket, hcons, h1, h2]
  · intro fan envs entries i sel tour h hht
    exact generate_tickets_for_fan_skips_ticketed fan entries envs i sel tour h hht

/-- A consent row whose `agreed` flag is set, for concrete witnesses. -/
def sampleConsentAgreed : Consent :=
  { fan_id := 1, agreed_to_terms := true, agreed_to_privacy := true,
    agreed_to_marketing := some false, age_verified := true, date_of_birth := none,
    confirmed_name := "Jane Doe", confirmed_email := "a@b.com",
    confirmed_phone := none, photo_id_path := none, photo_id_uploaded := false,
    signature_data := none, signature_name := none, ip_address := none,
    agreed := true, ticket_unlocked := true, signed_at := some 5 }

/-- Issuance state of a consented fan whose selection already has a ticket. -/
def sampleStateTicketed : IssueState :=
  { sampleState with
    fan := { sampleFan with consent := some sampleConsentAgreed },
    selection := { sampleState.selection with
      ticket_id := some "TKT-0",
      ticket_pdf_path := some "./tickets/generated/old.pdf" } }

/-- Witness for `reissue_with_ticket_is_noop`: both caller paths leave a
ticketed selection untouched. -/
theorem reissue_with_ticket_is_noop_witness :
    (sampleStateTicketed.fan.has_completed_consent = true ∧
     sampleStateTicketed.selection.ticket_id = some "TKT-0" ∧
     sampleStateTicketed.selection.has_ticket = true) ∧
    (generate_single_ticket sampleEnvOk sampleStateTicketed =
       (sampleStateTicketed, .alreadyGenerated "TKT-0" "./tickets/generated/old.pdf") ∧
     (generate_tickets_for_fan sampleFan [sampleEnvOk]
        [(sampleStateTicketed.selection, sampleTour)]).1[0]? =
       some (sampleStateTicketed.selection, sampleTour)) :=
  ⟨⟨rfl, rfl, rfl⟩,
   ⟨reissue_with_ticket_is_noop.1 sampleEnvOk sampleStateTicketed "TKT-0"
      "./tickets/generated/old.pdf" rfl rfl rfl,
    reissue_with_ticket_is_noop.2 sampleFan [sampleEnvOk]
      [(sampleStateTicketed.selection, sampleTour)] 0
      sampleStateTicketed.selection sampleTour rfl rfl⟩⟩

/-- C5: after any add operation that completes without error the fan holds
at most `maxTours` selections, and a bulk-add whose current count plus
requested count exceeds the ceiling is rejected outright by the first
check, before any row is persisted (all-or-nothing on this path). -/
theorem selection_limit_enforced :
    (∀ (maxTours : Nat) (fan : Fan) (tours : List Tour) (tourId nid : Nat) (fan1 : Fan),
       add_tour_selection maxTours fan tours tourId nid = .ok fan1 →
       fan1.selections_count ≤ maxTours) ∧
    (∀ (maxTours : Nat) (fan : Fan) (tours : List Tour) (tourIds : List Nat) (fan1 : Fan),
       add_bulk_tour_selections maxTours fan tours tourIds = .ok fan1 →
       fan1.selections_count ≤ maxTours) ∧
    (∀ (maxTours : Nat) (fan : Fan) (tours : List Tour) (tourIds : List Nat),
       fan.selections_count + tourIds.length > maxTours →
       add_bulk_tour_selections maxTours fan tours tourIds =
         .error (.limitExceeded tourIds.length fan.selections_count maxTours)) := by
  refine ⟨?_, ?_, ?_⟩
  · intro maxTours fan tours tourId nid fan1 h
    simp only [add_tour_selection] at h
    repeat' split at h
    all_goals try exact Except.noConfusion h
    simp only [Except.ok.injEq] at h
    subst h
    simp only [Fan.can_select_more_tours, Fan.selections_count, List.length_append,
      List.length_cons, List.length_nil, decide_eq_false_iff_not, not_not,
      Nat.not_lt] at *
    omega
  · intro maxTours fan tours tourIds fan1 h
    simp only [add_bulk_tour_selections] at h
    repeat' split at h
    all_goals try exact Except.noConfusion h
    simp only [Except.ok.injEq] at h
    subst h
    simp only [Fan.selections_count, List.length_append, List.length_map,
      Nat.not_lt] at *
    omega
  · intro maxTours fan tours tourIds hceil
    simp [add_bulk_tour_selections, hceil]

/-- Tours table used by the selection-limit witness. -/
def sampleTours : List Tour := [sampleTour]

/-- Witness for `selection_limit_enforced`: a single add and a bulk add for
a fan with no prior selections stay within the ceiling, and a 6-tour bulk
request against `MAX_TOURS_PER_FAN = 5` is rejected by the limit check. -/
theorem selection_limit_enforced_witness :
    (add_tour_selection MAX_TOURS_PER_FAN sampleFan sampleTours 2 9 =
       .ok { sampleFan with selections := [FanSelection.new 9 1 2] } ∧
     add_bulk_tour_selections MAX_TOURS_PER_FAN sampleFan sampleTours [2] =
       .ok { sampleFan with selections := [FanSelection.new 0 1 2] } ∧
     sampleFan.selections_count + [1, 2, 3, 4, 5, 6].length > MAX_TOURS_PER_FAN) ∧
    (({ sampleFan with selections := [FanSelection.new 9 1 2] } : Fan).selections_count
        ≤ MAX_TOURS_PER_FAN ∧
     ({ sampleFan with selections := [FanSelection.new 0 1 2] } : Fan).selections_count
        ≤ MAX_TOURS_PER_FAN ∧
     add_bulk_tour_selections MAX_TOURS_PER_FAN sampleFan sampleTours [1, 2, 3, 4, 5, 6] =
       .error (.limitExceeded 6 0 5)) :=
  ⟨⟨rfl, rfl, by decide⟩,
   ⟨selection_limit_enforced.1 MAX_TOURS_PER_FAN sampleFan sampleTours 2 9 _ rfl,
    selection_limit_enforced.2.1 MAX_TOURS_PER_FAN sampleFan sampleTours [2] _ rfl,
    selection_limit_enforced.2.2 MAX_TOURS_PER_FAN sampleFan sampleTours [1, 2, 3, 4, 5, 6]
      (by decide)⟩⟩

/-- Every character surviving `collapseWs` is either the inserted underscore
or a non-whitespace character of the input. -/
theorem mem_collapseWs (sp : Char → Bool) :
    ∀ (b : Bool) (l : List Char) (c : Char), c ∈ collapseWs sp b l →
      c = '_' ∨ (sp c = false ∧ c ∈ l) := by
  intro b l
  induction l generalizing b with
  | nil => intro c h; simp [collapseWs] at h
  | cons x xs ih =>
    intro c h
    by_cases hx : sp x = true
    · cases b
      · simp only [collapseWs, hx, if_true, Bool.false_eq_true, if_false,
          List.mem_cons] at h
        rcases h with rfl | h
        · exact .inl rfl
        · rcases ih true c h with h1 | ⟨h1, h2⟩
          · exact .inl h1
          · exact .inr ⟨h1, List.mem_cons_of_mem _ h2⟩
      · simp only [collapseWs, hx, if_true] at h
        rcases ih true c h with h1 | ⟨h1, h2⟩
        · exact .inl h1
        · exact .inr ⟨h1, List.mem_cons_of_mem _ h2⟩
    · have hx2 : sp x = false := by revert hx; cases sp x <;> simp
      simp only [collapseWs, hx2, Bool.false_eq_true, if_false, List.mem_cons] at h
      rcases h with rfl | h
      · exact .inr ⟨hx2, List.mem_cons_self _ _⟩
      · rcases ih false c h with h1 | ⟨h1, h2⟩
        · exact .inl h1
        · exact .inr ⟨h1, List.mem_cons_of_mem _ h2⟩

/-- Source `stripSeps` only removes characters. -/
theorem stripSeps_subset (l : List Char) : stripSeps l ⊆ l := by
  intro c hc
  unfold stripSeps at hc
  rw [List.mem_reverse] at hc
  have h1 := List.dropWhile_subset (l := (l.dropWhile sepChar).reverse) sepChar hc
  rw [List.mem_reverse] at h1
  exact List.dropWhile_subset sepChar h1

/-- The first character of a stripped string is not a separator. -/
theorem stripSeps_head_not_sep (l : List Char) (c : Char)
    (h : (stripSeps l).head? = some c) : sepChar c = false := by
  unfold stripSeps at h
  rw [List.head?_reverse] at h
  have hstep : ((l.dropWhile sepChar).reverse).getLast? = some c := by
    obtain ⟨t, ht⟩ := List.dropWhile_suffix (l := (l.dropWhile sepChar).reverse) sepChar
    have h4 : (t ++ (l.dropWhile sepChar).reverse.dropWhile sepChar).getLast? = some c := by
      rw [List.getLast?_append, h]
      rfl
    rwa [ht] at h4
  rw [List.getLast?_reverse] at hstep
  have h3 := List.head?_dropWhile_not sepChar l
  rw [hstep] at h3
  exact h3

/-- The last character of a stripped string is not a separator. -/
theorem stripSeps_getLast_not_sep (l : List Char) (c : Char)
    (h : (stripSeps l).getLast? = some c) : sepChar c = false := by
  unfold stripSeps at h
  rw [List.getLast?_reverse] at h
  have h3 := List.head?_dropWhile_not sepChar (l.dropWhile sepChar).reverse
  rw [h] at h3
  exact h3

/-- C8: `sanitize_filename` leaves only word, hyphen, dot and underscore
characters (in particular no whitespace), strips leading and trailing
separator characters, and therefore never yields a string containing `/`
nor the traversal segment `..` — filenames built from it cannot escape the
target directory.  The regex classes are abstract, assumed only to exclude
`/` and to exclude the underscore from whitespace, which holds of
Python's `\w` and `\s`. -/
theorem sanitize_filename_path_safe (w sp : Char → Bool) (hw : w '/' = false)
    (hsp : sp '/' = false) (hspu : sp '_' = false) (s : List Char) :
    (∀ c ∈ sanitize_filename w sp s,
        sp c = false ∧ (w c = true ∨ c = '-' ∨ c = '.' ∨ c = '_')) ∧
    (∀ c, (sanitize_filename w sp s).head? = some c → sepChar c = false) ∧
    (∀ c, (sanitize_filename w sp s).getLast? = some c → sepChar c = false) ∧
    '/' ∉ sanitize_filename w sp s ∧
    sanitize_filename w sp s ≠ ['.', '.'] := by
  have hmem : ∀ c ∈ sanitize_filename w sp s,
      sp c = false ∧ (w c = true ∨ c = '-' ∨ c = '.' ∨ c = '_') := by
    intro c hc
    simp only [sanitize_filename] at hc
    have hc2 := stripSeps_subset _ hc
    rcases mem_collapseWs sp false _ c hc2 with rfl | ⟨hspc, hcf⟩
    · exact ⟨hspu, by simp⟩
    · obtain ⟨-, hcond⟩ := List.mem_filter.mp hcf
      refine ⟨hspc, ?_⟩
      simp only [Bool.or_eq_true, decide_eq_true_eq] at hcond
      rcases hcond with ((hw1 | hs1) | h1) | h2
      · exact .inl hw1
      · rw [hspc] at hs1; exact absurd hs1 (by simp)
      · exact .inr (.inl h1)
      · exact .inr (.inr (.inl h2))
  have hhead : ∀ c, (sanitize_filename w sp s).head? = some c → sepChar c = false := by
    intro c h
    simp only [sanitize_filename] at h
    exact stripSeps_head_not_sep _ c h
  have hlast : ∀ c, (sanitize_filename w sp s).getLast? = some c → sepChar c = false := by
    intro c h
    simp only [sanitize_filename] at h
    exact stripSeps_getLast_not_sep _ c h
  refine ⟨hmem, hhead, hlast, ?_, ?_⟩
  · intro hin
    rcases (hmem '/' hin).2 with h1 | h1 | h1 | h1
    · rw [hw] at h1; exact absurd h1 (by simp)
    · exact absurd h1 (by decide)
    · exact absurd h1 (by decide)
    · exact absurd h1 (by decide)
  · intro heq
    have hh : (sanitize_filename w sp s).head? = some '.' := by rw [heq]; rfl
    have := hhead '.' hh
    exact absurd this (by decide)

/-- Witness for `sanitize_filename_path_safe` with the ASCII instances of
the regex classes on a traversal-attempt input. -/
theorem sanitize_filename_path_safe_witness :
    (wordChar '/' = false ∧ spaceChar '/' = false ∧ spaceChar '_' = false) ∧
    ((∀ c ∈ sanitize_filename wordChar spaceChar ("../etc pass/wd..".data),
        spaceChar c = false ∧ (wordChar c = true ∨ c = '-' ∨ c = '.' ∨ c = '_')) ∧
     (∀ c, (sanitize_filename wordChar spaceChar ("../etc pass/wd..".data)).head? = some c →
        sepChar c = false) ∧
     (∀ c, (sanitize_filename wordChar spaceChar ("../etc pass/wd..".data)).getLast? = some c →
        sepChar c = false) ∧
     '/' ∉ sanitize_filename wordChar spaceChar ("../etc pass/wd..".data) ∧
     sanitize_filename wordChar spaceChar ("../etc pass/wd..".data) ≠ ['.', '.']) :=
  ⟨⟨by decide, by decide, by decide⟩,
   sanitize_filename_path_safe wordChar spaceChar (by decide) (by decide) (by decide) _⟩

/-- Unfolding one step of a sequential execution. -/
theorem tourRun_cons (s : Tour × Nat) (op : TourOp) (ops : List TourOp) :
    tourRun s (op :: ops) = tourRun (tourStep s op) ops := rfl

/-- Inductive invariant of sequential executions in which selection-adds
happen only with no outstanding un-ticketed selection: the claimed counter
plus the outstanding count stays within the (unchanged) capacity. -/
theorem tourRun_inv : ∀ (ops : List TourOp) (s : Tour × Nat),
    s.1.tickets_claimed + s.2 ≤ s.1.ticket_limit → s.2 ≤ 1 →
    addsOnlyWhenDrained s ops = true →
    (tourRun s ops).1.tickets_claimed + (tourRun s ops).2 ≤ (tourRun s ops).1.ticket_limit ∧
    (tourRun s ops).1.ticket_limit = s.1.ticket_limit := by
  intro ops
  induction ops with
  | nil => intro s h1 h2 _; exact ⟨h1, rfl⟩
  | cons op ops ih =>
    intro s h1 h2 hg
    simp only [addsOnlyWhenDrained, Bool.and_eq_true] at hg
    obtain ⟨hg1, hg2⟩ := hg
    rw [tourRun_cons]
    cases op with
    | addSelection =>
      have hn0 : s.2 = 0 := by simpa using hg1
      by_cases hav : s.1.is_available = true
      · have hlt : s.1.tickets_claimed < s.1.ticket_limit := by
          have := hav
          simp only [Tour.is_available, Bool.and_eq_true, decide_eq_true_eq] at this
          exact this.2
        have hstep : tourStep s TourOp.addSelection = (s.1, s.2 + 1) := by
          simp [tourStep, hav]
        rw [hstep] at hg2 ⊢
        have := ih (s.1, s.2 + 1) (by simp; omega) (by simp; omega) hg2
        simpa using this
      · have hstep : tourStep s TourOp.addSelection = s := by
          simp only [tourStep]
          rw [if_neg]
          simpa using hav
        rw [hstep] at hg2 ⊢
        exact ih s h1 h2 hg2
    | issueTicket =>
      by_cases hp : s.2 > 0
      · have hstep : tourStep s TourOp.issueTicket =
            ({ s.1 with tickets_claimed := s.1.tickets_claimed + 1 }, s.2 - 1) := by
          simp [tourStep, hp]
        rw [hstep] at hg2 ⊢
        have := ih ({ s.1 with tickets_claimed := s.1.tickets_claimed + 1 }, s.2 - 1)
          (by simp; omega) (by simp; omega) hg2
        simpa using this
      · have hstep : tourStep s TourOp.issueTicket = s := by
          simp [tourStep, hp]
        rw [hstep] at hg2 ⊢
        exact ih s h1 h2 hg2

/-- A concrete tour with capacity 1. -/
def c2Tour : Tour :=
  { id := 1, title := "T", date := 0, city := "C", venue := "V", artists := "A",
    ticket_limit := 1, tickets_claimed := 0, is_active := true }

/-- C2 as stated is false: with capacity 1, two selection-adds are accepted
while `tickets_claimed = 0` (both pass the `is_available` check) and the two
subsequent issuances each increment the counter without re-checking
capacity, reaching `tickets_claimed = 2 > 1 = ticket_limit` in a purely
sequential execution. -/
theorem tour_capacity_counterexample :
    ¬ (∀ (t : Tour) (ops : List TourOp), t.tickets_claimed = 0 →
        (tourRun (t, 0) ops).1.tickets_claimed ≤ t.ticket_limit) := by
  intro hclaim
  have h := hclaim c2Tour
    [TourOp.addSelection, TourOp.addSelection, TourOp.issueTicket, TourOp.issueTicket] rfl
  revert h
  decide

/-- C2 amended: `tickets_claimed ≤ ticket_limit` does hold in every state
of a sequential execution provided each selection-add is performed only
while the tour has no outstanding un-ticketed selection (at most one
selection awaits issuance at any time); without that restriction the
counterexample above oversells sequentially, since issuance never re-checks
capacity. -/
theorem tour_capacity_sequential_amended (t : Tour) (n : Nat) (ops : List TourOp)
    (h1 : t.tickets_claimed + n ≤ t.ticket_limit) (h2 : n ≤ 1)
    (hg : addsOnlyWhenDrained (t, n) ops = true) :
    (tourRun (t, n) ops).1.tickets_claimed ≤ t.ticket_limit := by
  obtain ⟨hA, hB⟩ := tourRun_inv ops (t, n) h1 h2 hg
  have hB2 : (tourRun (t, n) ops).1.ticket_limit = t.ticket_limit := hB
  omega

/-- Witness for `tour_capacity_sequential_amended`: one add followed by its
issuance, then another add and issuance, never exceeds capacity 1. -/
theorem tour_capacity_sequential_amended_witness :
    (c2Tour.tickets_claimed + 0 ≤ c2Tour.ticket_limit ∧ 0 ≤ 1 ∧
     addsOnlyWhenDrained (c2Tour, 0)
       [TourOp.addSelection, TourOp.issueTicket, TourOp.addSelection,
        TourOp.issueTicket] = true) ∧
    (tourRun (c2Tour, 0)
       [TourOp.addSelection, TourOp.issueTicket, TourOp.addSelection,
        TourOp.issueTicket]).1.tickets_claimed ≤ c2Tour.ticket_limit :=
  ⟨⟨by decide, by decide, by decide⟩,
   tour_capacity_sequential_amended c2Tour 0 _ (by decide) (by decide) (by decide)⟩

/-- One exposed operation preserves the selection invariant: the status is
pending or confirmed, and it is confirmed exactly when a ticket is held. -/
theorem selStep_preserves_inv (fan : Fan) (tour : Tour) (sel : FanSelection) (op : SelOp)
    (s1 : FanSelection)
    (hInv : (sel.status = .pending ∨ sel.status = .confirmed) ∧
            (sel.status = .confirmed ↔ sel.has_ticket = true))
    (h : selStep fan tour sel op = .ok s1 ∨ selStep fan tour sel op = .err s1) :
    (s1.status = .pending ∨ s1.status = .confirmed) ∧
    (s1.status = .confirmed ↔ s1.has_ticket = true) := by
  cases op with
  | generate env =>
    by_cases hp : env.pdfOk = true
    · rcases h with h | h
      · simp only [selStep, hp, if_true, SelStepResult.ok.injEq] at h
        subst h
        refine ⟨.inr ?_, ?_⟩
        · simp [issueSuccess, FanSelection.confirm_selection]
        · simp [issueSuccess, FanSelection.confirm_selection, FanSelection.has_ticket]
      · simp [selStep, hp] at h
    · rcases h with h | h
      · simp [selStep, hp] at h
      · simp only [selStep, hp, Bool.false_eq_true, if_false, SelStepResult.err.injEq] at h
        subst h
        exact hInv
  | generateSingle env =>
    rcases ht : sel.ticket_id with _ | t0 <;> rcases hq : sel.ticket_pdf_path with _ | p0
    all_goals
      by_cases hp : env.pdfOk = true
    all_goals (
      rcases h with h | h <;>
        simp only [selStep, ht, hq, hp, if_true, Bool.false_eq_true, if_false,
          SelStepResult.ok.injEq, SelStepResult.err.injEq] at h <;>
        first
        | (subst h
           first
           | exact hInv
           | refine ⟨.inr ?_, ?_⟩
             · simp [issueSuccess, FanSelection.confirm_selection]
             · simp [issueSuccess, FanSelection.confirm_selection, FanSelection.has_ticket])
        | exact SelStepResult.noConfusion h)
  | remove =>
    by_cases hht : sel.has_ticket = true
    · rcases h with h | h
      · simp only [selStep, hht, if_true] at h
        exact SelStepResult.noConfusion h
      · simp only [selStep, hht, if_true, SelStepResult.err.injEq] at h
        subst h
        exact hInv
    · rcases h with h | h <;>
        simp [selStep, hht] at h

/-- The selection invariant holds after any run of exposed operations. -/
theorem selRun_inv (fan : Fan) (tour : Tour) :
    ∀ (ops : List SelOp) (sel sel1 : FanSelection),
      ((sel.status = .pending ∨ sel.status = .confirmed) ∧
       (sel.status = .confirmed ↔ sel.has_ticket = true)) →
      selRun fan tour sel ops = some sel1 →
      (sel1.status = .pending ∨ sel1.status = .confirmed) ∧
      (sel1.status = .confirmed ↔ sel1.has_ticket = true) := by
  intro ops
  induction ops with
  | nil =>
    intro sel sel1 hInv h
    simp only [selRun, Option.some.injEq] at h
    subst h
    exact hInv
  | cons op ops ih =>
    intro sel sel1 hInv h
    unfold selRun at h
    rcases hstep : selStep fan tour sel op with s2 | s2 | _
    · rw [hstep] at h
      exact ih s2 sel1 (selStep_preserves_inv fan tour sel op s2 hInv (.inl hstep)) h
    · rw [hstep] at h
      exact ih s2 sel1 (selStep_preserves_inv fan tour sel op s2 hInv (.inr hstep)) h
    · rw [hstep] at h
      exact absurd h (by simp)

/-- A kept (not deleted) step result is either the unchanged row or the
result of a successful issuance. -/
theorem selStep_result_shape (fan : Fan) (tour : Tour) (sel : FanSelection) (op : SelOp)
    (s1 : FanSelection)
    (h : selStep fan tour sel op = .ok s1 ∨ selStep fan tour sel op = .err s1) :
    s1 = sel ∨ ∃ env : GenEnv, s1 = (issueSuccess env fan tour sel).1 := by
  cases op with
  | generate env =>
    by_cases hp : env.pdfOk = true <;>
      rcases h with h | h <;>
      simp only [selStep, hp, if_true, Bool.false_eq_true, if_false,
        SelStepResult.ok.injEq, SelStepResult.err.injEq] at h <;>
      first
      | exact SelStepResult.noConfusion h
      | exact .inl h.symm
      | exact .inr ⟨env, h.symm⟩
  | generateSingle env =>
    rcases ht : sel.ticket_id with _ | t0 <;>
      rcases hq : sel.ticket_pdf_path with _ | p0 <;>
      by_cases hp : env.pdfOk = true <;>
      rcases h with h | h <;>
      simp only [selStep, ht, hq, hp, if_true, Bool.false_eq_true, if_false,
        SelStepResult.ok.injEq, SelStepResult.err.injEq] at h <;>
      first
      | exact SelStepResult.noConfusion h
      | exact .inl h.symm
      | exact .inr ⟨env, h.symm⟩
  | remove =>
    by_cases hht : sel.has_ticket = true <;>
      rcases h with h | h <;>
      simp only [selStep, hht, if_true, Bool.false_eq_true, if_false,
        SelStepResult.ok.injEq, SelStepResult.err.injEq] at h <;>
      first
      | exact SelStepResult.noConfusion h
      | exact .inl h.symm

/-- C9: under the exposed operations, a selection created pending reaches
only pending or confirmed states, and it is confirmed exactly when it holds
a ticket; the only status change any kept step can make is pending to
confirmed, and it carries a freshly written ticket (issuance is the only
writer); a ticketed selection can never be deleted, and the removal
endpoint rejects it with a validation error leaving the row in place; a
successful issuance always leaves the selection confirmed with a ticket. -/
theorem selection_state_machine :
    (∀ (fan : Fan) (tour : Tour) (nid fid tid : Nat) (ops : List SelOp) (sel : FanSelection),
       selRun fan tour (FanSelection.new nid fid tid) ops = some sel →
       (sel.status = SelectionStatus.pending ∨ sel.status = SelectionStatus.confirmed) ∧
       (sel.status = SelectionStatus.confirmed ↔ sel.has_ticket = true)) ∧
    (∀ (fan : Fan) (tour : Tour) (sel : FanSelection) (op : SelOp) (s1 : FanSelection),
       (sel.status = SelectionStatus.pending ∨ sel.status = SelectionStatus.confirmed) →
       (selStep fan tour sel op = .ok s1 ∨ selStep fan tour sel op = .err s1) →
       s1.status ≠ sel.status →
       sel.status = SelectionStatus.pending ∧ s1.status = SelectionStatus.confirmed ∧
       s1.has_ticket = true) ∧
    (∀ (fan : Fan) (tour : Tour) (sel : FanSelection) (op : SelOp),
       sel.has_ticket = true → selStep fan tour sel op ≠ SelStepResult.deleted) ∧
    (∀ (fan : Fan) (tour : Tour) (sel : FanSelection),
       sel.has_ticket = true → selStep fan tour sel SelOp.remove = SelStepResult.err sel) ∧
    (∀ (env : GenEnv) (fan : Fan) (tour : Tour) (sel : FanSelection),
       (issueSuccess env fan tour sel).1.status = SelectionStatus.confirmed ∧
       (issueSuccess env fan tour sel).1.has_ticket = true) := by
  refine ⟨?_, ?_, ?_, ?_, ?_⟩
  · intro fan tour nid fid tid ops sel h
    refine selRun_inv fan tour ops _ sel ⟨.inl rfl, ?_⟩ h
    simp [FanSelection.new, FanSelection.has_ticket]
  · intro fan tour sel op s1 hpc h hne
    rcases selStep_result_shape fan tour sel op s1 h with rfl | ⟨env, rfl⟩
    · exact absurd rfl hne
    · have hs1 : (issueSuccess env fan tour sel).1.status = SelectionStatus.confirmed := by
        simp [issueSuccess, FanSelection.confirm_selection]
      have hht : (issueSuccess env fan tour sel).1.has_ticket = true := by
        simp [issueSuccess, FanSelection.confirm_selection, FanSelection.has_ticket]
      rcases hpc with hq | hq
      · exact ⟨hq, hs1, hht⟩
      · rw [hs1, hq] at hne
        exact absurd rfl hne
  · intro fan tour sel op hht
    cases op with
    | generate env => by_cases hp : env.pdfOk = true <;> simp [selStep, hp]
    | generateSingle env =>
      have hh : sel.ticket_id.isSome = true ∧ sel.ticket_pdf_path.isSome = true := by
        simpa [FanSelection.has_ticket] using hht
      obtain ⟨t0, ht⟩ := Option.isSome_iff_exists.mp hh.1
      obtain ⟨p0, hq⟩ := Option.isSome_iff_exists.mp hh.2
      simp [selStep, ht, hq]
    | remove => simp [selStep, hht]
  · intro fan tour sel hht
    simp [selStep, hht]
  · intro env fan tour sel
    constructor
    · simp [issueSuccess, FanSelection.confirm_selection]
    · simp [issueSuccess, FanSelection.confirm_selection, FanSelection.has_ticket]

/-- Witness for `selection_state_machine`: a freshly created selection is
issued once; the resulting row is confirmed and holds its ticket, and the
removal endpoint rejects it. -/
theorem selection_state_machine_witness :
    (selRun sampleFan sampleTour (FanSelection.new 5 1 2) [SelOp.generate sampleEnvOk] =
       some (issueSuccess sampleEnvOk sampleFan sampleTour (FanSelection.new 5 1 2)).1 ∧
     (issueSuccess sampleEnvOk sampleFan sampleTour (FanSelection.new 5 1 2)).1.has_ticket
       = true) ∧
    (((issueSuccess sampleEnvOk sampleFan sampleTour (FanSelection.new 5 1 2)).1.status =
          SelectionStatus.pending ∨
        (issueSuccess sampleEnvOk sampleFan sampleTour (FanSelection.new 5 1 2)).1.status =
          SelectionStatus.confirmed) ∧
      ((issueSuccess sampleEnvOk sampleFan sampleTour (FanSelection.new 5 1 2)).1.status =
          SelectionStatus.confirmed ↔
        (issueSuccess sampleEnvOk sampleFan sampleTour (FanSelection.new 5 1 2)).1.has_ticket
          = true)) ∧
    selStep sampleFan sampleTour
        (issueSuccess sampleEnvOk sampleFan sampleTour (FanSelection.new 5 1 2)).1
        SelOp.remove =
      SelStepResult.err
        (issueSuccess sampleEnvOk sampleFan sampleTour (FanSelection.new 5 1 2)).1 :=
  ⟨⟨rfl, rfl⟩,
   selection_state_machine.1 sampleFan sampleTour 5 1 2 [SelOp.generate sampleEnvOk] _ rfl,
   selection_state_machine.2.2.2.1 sampleFan sampleTour _ rfl⟩
